import Mathlib

/-!
Shallow embedding of the ink! contract in `src/lib.rs` (module `casino`).

The contract stores a mapping `bets : BetId -> (Round, User)` and a reference
to an external randomness oracle, and exposes three messages:
`get_random`, `register_bet` and `resolve_bet`.

Modelling decisions, in order of appearance in the source:
* `BetId` (`u128`), `Round` (`u64`) and `AccountId` are modelled as `Nat`;
  no arithmetic in the contract comes near the width bounds (the only
  arithmetic is `current_round + 2`), so overflow wrapping is immaterial.
* The ink! `Mapping` is modelled as a deduplicating association list with
  the operations the source uses: `get`, `insert` (overwrites), `remove`.
* The external collaborators (the DIA oracle contract behind
  `contract_ref!(RandomOracleGetter)`, the value-transfer layer, and the
  host-supplied caller) are modelled as an explicit `Env` record threaded
  into each message.
* The `.unwrap()` in `resolve_bet` panics on a missing record; a panic is an
  unrecoverable abort (the message traps and the host reverts), modelled as
  the `none` result of `resolve_bet`.
* `resolve_bet` additionally reports the list of users passed to
  `pay_reward` during the call, so that theorems can observe to whom a
  reward payment was attempted; this is pure instrumentation of the
  external-credit effect, it does not alter control flow.
-/

namespace casino

/-- `type BetId = u128` (source line 50). -/
abbrev BetId := Nat

/-- `type Round = u64` (source line 51). -/
abbrev Round := Nat

/-- `type User = AccountId` (source line 52); account identities are opaque,
modelled as `Nat`. -/
abbrev User := Nat

/-- `Vec<u8>` randomness payloads. -/
abbrev Bytes := List Nat

/-- The contract's `Error` enum (source lines 43-47).  Note: it has exactly
the three variants `FailedTransfer`, `BetResolutionTooEarly` and
`Custom(Vec<u8>)`; there is no not-found variant. -/
inductive Error where
  | FailedTransfer : Error
  | BetResolutionTooEarly : Error
  | Custom : Bytes → Error
  deriving DecidableEq, Repr

/-- `type BetDetails = (Round, User)` (source line 53). -/
abbrev BetDetails := Round × User

/-- The ink! `Mapping<BetId, BetDetails>` storage, as an association list
whose `insert` removes any previous binding of the key. -/
abbrev Ledger := List (BetId × BetDetails)

/-- `Mapping::get`. -/
def mappingGet : Ledger → BetId → Option BetDetails
  | [], _ => none
  | (k, v) :: rest, i => if k = i then some v else mappingGet rest i

/-- `Mapping::remove`. -/
def mappingRemove : Ledger → BetId → Ledger
  | [], _ => []
  | (k, v) :: rest, i =>
      if k = i then mappingRemove rest i else (k, v) :: mappingRemove rest i

/-- `Mapping::insert` (overwrites any previous binding of the key). -/
def mappingInsert (m : Ledger) (i : BetId) (v : BetDetails) : Ledger :=
  (i, v) :: mappingRemove m i

/-- The contract storage (source lines 55-60): only the bets mapping is
state; the oracle reference is an external collaborator and lives in `Env`. -/
structure Casino where
  bets : Ledger
  deriving DecidableEq, Repr

/-- The execution environment of one message call: the host-provided caller
(`self.env().caller()`), the external oracle
(`get_latest_round` / `get_random_value_for_round`), and the external
value-transfer layer.

The `debit`/`credit` fields are **modelled from the spec**: the bodies of
`pay_fee` and `pay_reward` in the source are unimplemented placeholders
(`// implement fee payment`, `//implement reward payment`), and the spec
(sections 4.4 and 7) specifies the missing settlement ledger as external
`debit`/`credit` operations returning `Result<(), TransferError>` that may
fail. -/
structure Env where
  caller : User
  get_latest_round : Round
  get_random_value_for_round : Round → Option Bytes
  debit : User → Except Error Unit
  credit : User → Except Error Unit

/-- `get_random` (source lines 72-75): read-only passthrough to the oracle. -/
def get_random (env : Env) (_self : Casino) (key : Round) : Option Bytes :=
  env.get_random_value_for_round key

/-- `get_id` (source lines 120-123): the id-generation placeholder, which
returns the constant `42` for every contract state. -/
def get_id (_self : Casino) : BetId :=
  42

/-- `pay_fee` (source lines 125-128).  The body is the stub `Ok(())` marked
`// implement fee payment`; modelled from the spec as a debit of the fixed
fee from `user` on the external settlement ledger, which may fail. -/
def pay_fee (env : Env) (_self : Casino) (user : User) : Except Error Unit :=
  env.debit user

/-- `is_victorious` (source lines 130-133): the victory predicate
placeholder, which returns `true` for every randomness input. -/
def is_victorious (_self : Casino) (_randomness : Bytes) : Bool :=
  true

/-- `pay_reward` (source lines 135-138).  The body is the stub `Ok(())`
marked `//implement reward payment`; modelled from the spec as a credit of
the reward to `user` on the external settlement ledger, which may fail. -/
def pay_reward (env : Env) (_self : Casino) (user : User) : Except Error Unit :=
  env.credit user

/-- `register_bet` (source lines 78-91): debit the fee from the caller
(propagating failure with `?`), then allocate `get_id`, read the oracle's
latest round, store `(current_round + 2, caller)` and return `Ok(())`.
Note the Rust return type is `Result<(), Error>`: the `Ok` payload is the
unit value, not the bet id. -/
def register_bet (env : Env) (s : Casino) : Except Error Unit × Casino :=
  let user := env.caller
  match pay_fee env s user with
  | Except.error e => (Except.error e, s)
  | Except.ok _ =>
      let bet_id := get_id s
      let current_round := env.get_latest_round
      let round := current_round + 2
      let details : BetDetails := (round, user)
      (Except.ok (), ⟨mappingInsert s.bets bet_id details⟩)

/-- `resolve_bet` (source lines 97-118).  The source reads
`self.bets.get(bet_id).unwrap().0`: on a missing record the `unwrap`
panics, modelled as the `none` result (the call aborts, no typed error).
Otherwise it queries the oracle for the stored round; `None` means
`Err(BetResolutionTooEarly)` before any state change; `Some` evaluates
`is_victorious` and, if victorious, calls `pay_reward(user)` with `user`
the caller, propagating its failure with `?`; then the record is removed
and `Ok(())` returned.  The third component of the result lists the users
passed to `pay_reward` during the call. -/
def resolve_bet (env : Env) (bet_id : BetId) (s : Casino) :
    Option (Except Error Unit × Casino × List User) :=
  let user := env.caller
  match mappingGet s.bets bet_id with
  | none => none
  | some details =>
      let round := details.1
      match env.get_random_value_for_round round with
      | some randomness =>
          if is_victorious s randomness then
            match pay_reward env s user with
            | Except.error e => some (Except.error e, s, [user])
            | Except.ok _ =>
                some (Except.ok (), ⟨mappingRemove s.bets bet_id⟩, [user])
          else
            some (Except.ok (), ⟨mappingRemove s.bets bet_id⟩, [])
      | none => some (Except.error Error.BetResolutionTooEarly, s, [])

/-- The states reachable from a freshly constructed contract
(`Casino::new`, whose bets mapping is `Mapping::default()`, i.e. empty) by
any sequence of `register_bet` and `resolve_bet` calls, under arbitrary
callers, oracle behaviour and settlement outcomes.  A panicking
`resolve_bet` produces no new state (the host reverts a trapped call). -/
inductive Reachable : Casino → Prop where
  | new : Reachable ⟨[]⟩
  | register (env : Env) (s : Casino) :
      Reachable s → Reachable (register_bet env s).2
  | resolve (env : Env) (bet_id : BetId) (s : Casino)
      (r : Except Error Unit × Casino × List User) :
      Reachable s → resolve_bet env bet_id s = some r → Reachable r.2.1

/-! Concrete environments used by witnesses and counterexamples. -/

/-- Caller 1, latest round 5, no randomness published, transfers succeed. -/
def envA : Env :=
  Env.mk 1 5 (fun _ => none) (fun _ => Except.ok ()) (fun _ => Except.ok ())

/-- Caller 2, latest round 7, no randomness published, transfers succeed. -/
def envB : Env :=
  Env.mk 2 7 (fun _ => none) (fun _ => Except.ok ()) (fun _ => Except.ok ())

/-- Caller 1, randomness `[0xFF]` published for round 7, transfers
succeed. -/
def envPub : Env :=
  Env.mk 1 9 (fun r => if r = 7 then some [255] else none)
    (fun _ => Except.ok ()) (fun _ => Except.ok ())

/-- Caller 1, fee debit fails with `FailedTransfer`. -/
def envFeeFail : Env :=
  Env.mk 1 5 (fun _ => none) (fun _ => Except.error Error.FailedTransfer)
    (fun _ => Except.ok ())

/-- The fixed target-round offset used by `register_bet`
(source line 86: `let round = current_round + 2`). -/
def OFFSET : Round := 2

/-! ## Helper lemmas -/

/-- A non-panicking `resolve_bet` either leaves the state unchanged or
removes exactly the resolved id. -/
theorem resolve_state_shape (env : Env) (bet_id : BetId) (s : Casino)
    (r : Except Error Unit × Casino × List User)
    (heq : resolve_bet env bet_id s = some r) :
    r.2.1 = s ∨ r.2.1 = ⟨mappingRemove s.bets bet_id⟩ := by
  cases hget : mappingGet s.bets bet_id with
  | none => simp [resolve_bet, hget] at heq
  | some details =>
      cases hrnd : env.get_random_value_for_round details.1 with
      | none =>
          simp [resolve_bet, hget, hrnd] at heq
          subst heq
          exact Or.inl rfl
      | some rnd =>
          cases hcr : env.credit env.caller with
          | error e =>
              simp [resolve_bet, hget, hrnd, is_victorious, pay_reward, hcr]
                at heq
              subst heq
              exact Or.inl rfl
          | ok u =>
              cases u
              simp [resolve_bet, hget, hrnd, is_victorious, pay_reward, hcr]
                at heq
              subst heq
              exact Or.inr rfl

/-- Every reachable ledger is empty or a single record keyed by 42. -/
theorem reachable_shape (s : Casino) (h : Reachable s) :
    s.bets = [] ∨ ∃ v, s.bets = [(42, v)] := by
  induction h with
  | new => exact Or.inl rfl
  | register env s hs ih =>
      cases hfee : env.debit env.caller with
      | error e => simpa [register_bet, pay_fee, hfee] using ih
      | ok u =>
          cases u
          refine Or.inr ⟨(env.get_latest_round + 2, env.caller), ?_⟩
          rcases ih with h0 | ⟨v, hv⟩
          · simp [register_bet, pay_fee, hfee, get_id, mappingInsert, h0,
              mappingRemove]
          · simp [register_bet, pay_fee, hfee, get_id, mappingInsert, hv,
              mappingRemove]
  | resolve env bet_id s r hs heq ih =>
      rcases resolve_state_shape env bet_id s r heq with hr | hr
      · rw [hr]; exact ih
      · rw [hr]
        rcases ih with h0 | ⟨v, hv⟩
        · exact Or.inl (by simp [h0, mappingRemove])
        · by_cases hb : bet_id = 42
          · subst hb
            exact Or.inl (by simp [hv, mappingRemove])
          · have hb2 : (42 : BetId) ≠ bet_id := fun hc => hb hc.symm
            exact Or.inr ⟨v, by simp [hv, mappingRemove, hb2]⟩

/-- When the record exists and the randomness for its round is published,
`resolve_bet` attempts exactly one reward payment, to the caller. -/
theorem resolve_pays_caller (env : Env) (bet_id : BetId) (s : Casino)
    (round : Round) (owner : User) (rnd : Bytes)
    (hget : mappingGet s.bets bet_id = some (round, owner))
    (hrnd : env.get_random_value_for_round round = some rnd) :
    Option.map (fun r => r.2.2) (resolve_bet env bet_id s) =
      some [env.caller] := by
  cases hcr : env.credit env.caller with
  | error e =>
      simp [resolve_bet, hget, hrnd, is_victorious, pay_reward, hcr]
  | ok u =>
      cases u
      simp [resolve_bet, hget, hrnd, is_victorious, pay_reward, hcr]

/-! ## Claim theorems -/

/-- Claim C1: the claim says `resolve_bet` on an unknown id returns a typed
`BetNotFound` error and never aborts.  The code disagrees: on a fresh
(empty-ledger) contract, `resolve_bet 0` hits `.unwrap()` on `None` and
panics (modelled as `none`, an unrecoverable abort), and the `Error` enum
has no not-found variant at all — its only values are `FailedTransfer`,
`BetResolutionTooEarly` and `Custom`. -/
theorem c1_missing_bet_panics :
    resolve_bet envA 0 ⟨[]⟩ = none ∧
    ∀ e : Error, e = Error.FailedTransfer ∨ e = Error.BetResolutionTooEarly ∨
      ∃ p, e = Error.Custom p := by
  refine ⟨rfl, ?_⟩
  intro e
  cases e with
  | FailedTransfer => exact Or.inl rfl
  | BetResolutionTooEarly => exact Or.inr (Or.inl rfl)
  | Custom p => exact Or.inr (Or.inr ⟨p, rfl⟩)

/-- Claim C2: the claim says a successful `register_bet` allocates an id
distinct from every live id.  The code disagrees: after one registration
the ledger holds a live bet with id 42, and a second successful
registration allocates `get_id = 42` again — the very id of the live
bet — and overwrites its record. -/
theorem c2_id_collides_with_live_bet :
    (register_bet envA ⟨[]⟩).2.bets = [(42, (7, 1))] ∧
    get_id (register_bet envA ⟨[]⟩).2 = 42 ∧
    register_bet envB (register_bet envA ⟨[]⟩).2 =
      (Except.ok (), ⟨[(42, (9, 2))]⟩) :=
  ⟨rfl, rfl, rfl⟩

/-- Claim C3: the claim says a successful `register_bet` returns the
freshly allocated bet id as its `Ok` value.  The code disagrees: its
return type is `Result<(), Error>`, so a successful call stores the record
under id 42 but returns `Ok(())` — the unit value, not the id. -/
theorem c3_register_returns_unit_not_id :
    register_bet envA ⟨[]⟩ = (Except.ok (), ⟨[(42, (7, 1))]⟩) :=
  rfl

/-- Claim C4: the claim says the second `resolve_bet` on the same id
returns `BetNotFound`.  The code disagrees on the second half: the first
resolve (randomness for round 7 published) succeeds, pays the caller and
removes the record, so no double payout is possible — but the second call
with the same id panics on `.unwrap()` (modelled as `none`) instead of
returning a typed error. -/
theorem c4_second_resolve_panics :
    resolve_bet envPub 42 ⟨[(42, (7, 1))]⟩ =
      some (Except.ok (), ⟨[]⟩, [1]) ∧
    resolve_bet envPub 42 ⟨[]⟩ = none :=
  ⟨rfl, rfl⟩

/-- Claim C5: while the oracle has no randomness for the stored round,
`resolve_bet` returns `BetResolutionTooEarly`, attempts no payment, and
leaves the state (hence the bet record) exactly unchanged — so the call
can be repeated any number of times with the same result. -/
theorem c5_too_early_keeps_record (env : Env) (bet_id : BetId) (s : Casino)
    (round : Round) (owner : User)
    (hget : mappingGet s.bets bet_id = some (round, owner))
    (hnone : env.get_random_value_for_round round = none) :
    resolve_bet env bet_id s =
      some (Except.error Error.BetResolutionTooEarly, s, []) := by
  simp [resolve_bet, hget, hnone]

/-- Witness for C5 at a concrete input. -/
theorem c5_too_early_keeps_record_witness :
    resolve_bet envA 42 ⟨[(42, (7, 1))]⟩ =
      some (Except.error Error.BetResolutionTooEarly, ⟨[(42, (7, 1))]⟩, []) :=
  c5_too_early_keeps_record envA 42 ⟨[(42, (7, 1))]⟩ 7 1 rfl rfl

/-- Counterexample to claim C6: a bet owned by user 0, resolved by caller 1
with the randomness published, pays acting user 1 (the caller) and nobody
else — the stored owner 0 receives nothing, refuting "the reward is
credited to the stored owner regardless of the caller". -/
theorem c6_counterexample :
    resolve_bet envPub 42 ⟨[(42, (7, 0))]⟩ =
      some (Except.ok (), ⟨[]⟩, [1]) ∧
    (1 : User) ≠ (0 : User) :=
  ⟨rfl, by decide⟩

/-- Claim C6 as amended: a victorious `resolve_bet` credits the reward to
the caller of `resolve_bet`, not to the stored owner — when the two
differ, the payment list is exactly the caller and is not the owner. -/
theorem c6_reward_goes_to_caller (env : Env) (bet_id : BetId) (s : Casino)
    (round : Round) (owner : User) (rnd : Bytes)
    (hget : mappingGet s.bets bet_id = some (round, owner))
    (hrnd : env.get_random_value_for_round round = some rnd)
    (hne : owner ≠ env.caller) :
    Option.map (fun r => r.2.2) (resolve_bet env bet_id s) =
      some [env.caller] ∧
    Option.map (fun r => r.2.2) (resolve_bet env bet_id s) ≠
      some [owner] := by
  have h1 := resolve_pays_caller env bet_id s round owner rnd hget hrnd
  refine ⟨h1, ?_⟩
  rw [h1]
  intro hcontra
  have : env.caller = owner := by simpa using hcontra
  exact hne this.symm

/-- Witness for the amended C6 at a concrete input. -/
theorem c6_reward_goes_to_caller_witness :
    Option.map (fun r => r.2.2) (resolve_bet envPub 42 ⟨[(42, (7, 0))]⟩) =
      some [1] ∧
    Option.map (fun r => r.2.2) (resolve_bet envPub 42 ⟨[(42, (7, 0))]⟩) ≠
      some [0] :=
  c6_reward_goes_to_caller envPub 42 ⟨[(42, (7, 0))]⟩ 7 0 [255] rfl rfl
    (by decide)

/-- Claim C7: if the fee debit fails, `register_bet` returns that transfer
error and the whole state is unchanged — no record is inserted. -/
theorem c7_failed_fee_leaves_state (env : Env) (s : Casino) (e : Error)
    (h : pay_fee env s env.caller = Except.error e) :
    register_bet env s = (Except.error e, s) := by
  simp [register_bet, h]

/-- Witness for C7 at a concrete input. -/
theorem c7_failed_fee_leaves_state_witness :
    register_bet envFeeFail ⟨[]⟩ =
      (Except.error Error.FailedTransfer, ⟨[]⟩) :=
  c7_failed_fee_leaves_state envFeeFail ⟨[]⟩ Error.FailedTransfer rfl

/-- Claim C8: a successful `register_bet` stores
`target_round = current_round + OFFSET` with `OFFSET = 2 ≥ 2`, so the
stored round strictly exceeds the round observed at registration time. -/
theorem c8_target_round_offset (env : Env) (s : Casino)
    (h : (register_bet env s).1 = Except.ok ()) :
    mappingGet (register_bet env s).2.bets (get_id s) =
      some (env.get_latest_round + OFFSET, env.caller) ∧
    2 ≤ OFFSET ∧
    env.get_latest_round < env.get_latest_round + OFFSET := by
  cases hfee : env.debit env.caller with
  | error e =>
      exfalso
      simp [register_bet, pay_fee, hfee] at h
  | ok u =>
      cases u
      refine ⟨?_, by norm_num [OFFSET], by simp [OFFSET]⟩
      simp [register_bet, pay_fee, hfee, mappingInsert, mappingGet, get_id,
        OFFSET]

/-- Witness for C8 at a concrete input. -/
theorem c8_target_round_offset_witness :
    mappingGet (register_bet envA ⟨[]⟩).2.bets (get_id ⟨[]⟩) =
      some (5 + OFFSET, 1) ∧
    2 ≤ OFFSET ∧ (5 : Round) < 5 + OFFSET :=
  c8_target_round_offset envA ⟨[]⟩ rfl

/-- Claim C9: in every reachable state the ledger holds at most one record,
any record is keyed by 42, and a successful `register_bet` performed in
such a state leaves exactly the one freshly inserted record — overwriting
whatever live record was there. -/
theorem c9_single_slot_ledger (s : Casino) (env : Env) (h : Reachable s) :
    (∀ p ∈ s.bets, p.1 = 42) ∧ s.bets.length ≤ 1 ∧
    ((register_bet env s).1 = Except.ok () →
      (register_bet env s).2.bets =
        [(42, (env.get_latest_round + 2, env.caller))]) := by
  rcases reachable_shape s h with h0 | ⟨v, hv⟩ <;>
    refine ⟨?_, ?_, ?_⟩
  · intro p hp; rw [h0] at hp; cases hp
  · rw [h0]; simp
  · intro hok
    cases hfee : env.debit env.caller with
    | error e => exfalso; simp [register_bet, pay_fee, hfee] at hok
    | ok u =>
        cases u
        simp [register_bet, pay_fee, hfee, get_id, mappingInsert, h0,
          mappingRemove]
  · intro p hp; rw [hv] at hp; simp at hp; rw [hp]
  · rw [hv]; simp
  · intro hok
    cases hfee : env.debit env.caller with
    | error e => exfalso; simp [register_bet, pay_fee, hfee] at hok
    | ok u =>
        cases u
        simp [register_bet, pay_fee, hfee, get_id, mappingInsert, hv,
          mappingRemove]

/-- Witness for C9 at a concrete reachable state holding a live bet. -/
theorem c9_single_slot_ledger_witness :
    (∀ p ∈ (Casino.mk [(42, (7, 1))]).bets, p.1 = 42) ∧
    (Casino.mk [(42, (7, 1))]).bets.length ≤ 1 ∧
    ((register_bet envB ⟨[(42, (7, 1))]⟩).1 = Except.ok () →
      (register_bet envB ⟨[(42, (7, 1))]⟩).2.bets = [(42, (9, 2))]) := by
  have hreach : Reachable (⟨[(42, (7, 1))]⟩ : Casino) :=
    Reachable.register envA ⟨[]⟩ Reachable.new
  exact c9_single_slot_ledger ⟨[(42, (7, 1))]⟩ envB hreach

/-- Claim C10: `is_victorious` returns `true` on every input, so every
`resolve_bet` that finds the randomness of its stored round published
takes the victory branch and attempts exactly one reward payment (to the
caller). -/
theorem c10_always_victorious (rnd0 : Bytes) (env : Env) (bet_id : BetId)
    (s : Casino) (round : Round) (owner : User) (rnd : Bytes)
    (hget : mappingGet s.bets bet_id = some (round, owner))
    (hrnd : env.get_random_value_for_round round = some rnd) :
    is_victorious s rnd0 = true ∧
    Option.map (fun r => r.2.2) (resolve_bet env bet_id s) =
      some [env.caller] :=
  ⟨rfl, resolve_pays_caller env bet_id s round owner rnd hget hrnd⟩

/-- Witness for C10 at a concrete input. -/
theorem c10_always_victorious_witness :
    is_victorious ⟨[(42, (7, 1))]⟩ [0] = true ∧
    Option.map (fun r => r.2.2) (resolve_bet envPub 42 ⟨[(42, (7, 1))]⟩) =
      some [1] :=
  c10_always_victorious [0] envPub 42 ⟨[(42, (7, 1))]⟩ 7 1 [255] rfl rfl

end casino
